import Mathlib

/-!
Verification of the exception module of a REST framework
(`rest_framework/exceptions.py`).

The development shallowly embeds the Python module: Python values that can
appear inside a validation `detail` structure become the inductive type
`PyVal`; functions that can fail an `assert` return `Except String`, the
error carrying the assertion message; the process-wide configuration
(`api_settings`) becomes an explicit `ApiSettings` record.
-/

/-- A Python value as it can appear in a validation detail structure:
a plain string, a deferred (lazy translation) string that resolves to the
carried text, the value None, a list, a tuple, or a dict given as its list
of key-value pairs in insertion order. -/
inductive PyVal where
  | str (s : String)
  | lazy (s : String)
  | none
  | list (xs : List PyVal)
  | tuple (xs : List PyVal)
  | dict (kvs : List (PyVal × PyVal))

/-- Modelled from the spec: Django `force_text` resolves a deferred text
value to its concrete string and applies str() to other scalars; str() of
None is the string "None". The container cases are never reached by the
embedded functions (`_force_text_recursive` matches containers first, and
the other call sites only receive scalar text) and are given a dummy
value. -/
def force_text : PyVal → String
  | .str s => s
  | .lazy s => s
  | .none => "None"
  | .list _ => ""
  | .tuple _ => ""
  | .dict _ => ""

mutual
/-- Embeds `_force_text_recursive`: descend into a nested data structure,
forcing any lazy translation strings into plain text. Lists map to lists,
tuples to tuples, dicts to dicts with only the values transformed, and any
other value is replaced by its forced text. -/
def _force_text_recursive : PyVal → PyVal
  | .list xs => .list (_force_text_recursive_list xs)
  | .tuple xs => .tuple (_force_text_recursive_list xs)
  | .dict kvs => .dict (_force_text_recursive_pairs kvs)
  | v => .str (force_text v)

/-- The list comprehension inside `_force_text_recursive` for lists and
tuples. -/
def _force_text_recursive_list : List PyVal → List PyVal
  | [] => []
  | x :: xs => _force_text_recursive x :: _force_text_recursive_list xs

/-- The dict comprehension inside `_force_text_recursive`: each key is kept
as is, each value is transformed recursively. -/
def _force_text_recursive_pairs : List (PyVal × PyVal) → List (PyVal × PyVal)
  | [] => []
  | (k, v) :: ps => (k, _force_text_recursive v) :: _force_text_recursive_pairs ps
end

/-- Modelled from the spec: the process-wide configuration surface read by
this module, namely the `REQUIRE_ERROR_CODES` flag (strict error-code
enforcement) and the pluggable `ERROR_BUILDER` function. -/
structure ApiSettings where
  REQUIRE_ERROR_CODES : Bool
  ERROR_BUILDER : PyVal → Option String → PyVal

/-- Converts an optional error code to the Python value received by an
error builder: the code string itself, or None when absent. -/
def pyOptionValue : Option String → PyVal
  | Option.none => PyVal.none
  | some s => PyVal.str s

/-- Embeds `default_error_builder`: returns the literal pair
`(detail, error_code)`. -/
def default_error_builder (detail : PyVal) (error_code : Option String) : PyVal :=
  PyVal.tuple [detail, pyOptionValue error_code]

/-- Whether a Python value is a dict. -/
def PyVal.isDict : PyVal → Bool
  | .dict _ => true
  | _ => false

/-- Whether a Python value is a list. -/
def PyVal.isList : PyVal → Bool
  | .list _ => true
  | _ => false

/-- Whether a Python value is a scalar text value (plain or deferred
string). -/
def PyVal.isTextLeaf : PyVal → Bool
  | .str _ => true
  | .lazy _ => true
  | _ => false

/-- The assertion message of `build_error` for dict or list arguments. -/
def buildErrorCompoundMsg : String :=
  "Use `build_error` only with single error messages. Dictionaries and lists should be passed directly to ValidationError."

/-- The assertion message of `build_error` for a missing error code under
strict checking. -/
def buildErrorCodeRequiredMsg : String :=
  "The `error_code` argument is required for single errors. Strict checking of error_code is enabled with REQUIRE_ERROR_CODES settings key."

/-- The assertion message of `ValidationError.__init__` for a compound
detail passed together with an error code under strict checking. -/
def validationCompoundCodeMsg : String :=
  "The `error_code` argument must not be set for compound errors. Strict checking of error_code is enabled with REQUIRE_ERROR_CODES settings key."

/-- Embeds `build_error`: asserts that the detail is neither a dict nor a
list, asserts the error code is present when `REQUIRE_ERROR_CODES` is on,
and returns the result of the configured `ERROR_BUILDER`. -/
def build_error (s : ApiSettings) (detail : PyVal) (error_code : Option String) :
    Except String PyVal :=
  if detail.isDict = true ∨ detail.isList = true then
    Except.error buildErrorCompoundMsg
  else if s.REQUIRE_ERROR_CODES = true ∧ error_code = Option.none then
    Except.error buildErrorCodeRequiredMsg
  else
    Except.ok (s.ERROR_BUILDER detail error_code)

/-- The attributes stored on a constructed ValidationError instance. -/
structure ValidationErrorState where
  detail : PyVal
  error_code : Option String

/-- Embeds `ValidationError.__init__`: a detail that is neither a dict nor
a list is wrapped as a one-element list holding the built error; otherwise,
under strict checking, the error code must be absent. The (possibly
wrapped) detail is then normalized with `_force_text_recursive` and stored
together with the error code. -/
def ValidationError_init (s : ApiSettings) (detail : PyVal) (error_code : Option String) :
    Except String ValidationErrorState :=
  if detail.isDict = false ∧ detail.isList = false then
    match build_error s detail error_code with
    | Except.error msg => Except.error msg
    | Except.ok entry =>
        Except.ok ⟨_force_text_recursive (PyVal.list [entry]), error_code⟩
  else if s.REQUIRE_ERROR_CODES = true ∧ error_code ≠ Option.none then
    Except.error validationCompoundCodeMsg
  else
    Except.ok ⟨_force_text_recursive detail, error_code⟩

/-- The data carried by a Django field-level ValidationError as consumed by
`build_error_from_django_validation_error`: an optional classifier code and
the list of messages. -/
structure DjangoValidationErrorInfo where
  code : Option String
  messages : List PyVal

/-- Embeds the Python expression `exc_info.code or 'invalid'`: the default
is used when the code is absent or falsy (the empty string). -/
def pyOrDefault (code : Option String) (dflt : String) : String :=
  match code with
  | Option.none => dflt
  | some s => if s = "" then dflt else s

/-- The list comprehension inside `build_error_from_django_validation_error`:
builds one error per message, left to right, propagating the first
assertion failure. -/
def build_error_messages (s : ApiSettings) (code : String) :
    List PyVal → Except String (List PyVal)
  | [] => Except.ok []
  | m :: ms =>
    match build_error s m (some code) with
    | Except.error e => Except.error e
    | Except.ok entry =>
      match build_error_messages s code ms with
      | Except.error e => Except.error e
      | Except.ok rest => Except.ok (entry :: rest)

/-- Embeds `build_error_from_django_validation_error`: resolves the
classifier code with default "invalid" and builds one error per message,
all sharing that code. -/
def build_error_from_django_validation_error (s : ApiSettings)
    (exc_inf : DjangoValidationErrorInfo) : Except String (List PyVal) :=
  build_error_messages s (pyOrDefault exc_inf.code "invalid") exc_inf.messages

/-- Modelled from the spec: the HTTP status code of MethodNotAllowed, from
the status table (the `status` module is not part of the sources). -/
def MethodNotAllowed_status_code : Nat := 405

/-- Embeds `force_text(MethodNotAllowed.default_detail).format(method=method)`:
the default detail template `Method "{method}" not allowed.` with its
single placeholder filled in. -/
def MethodNotAllowed_formatted_default (method : String) : String :=
  "Method \"" ++ method ++ "\" not allowed."

/-- Embeds `MethodNotAllowed.__init__`: an explicit detail is resolved with
`force_text` and stored; otherwise the method-filled template is stored. -/
def MethodNotAllowed_init (method : String) (detail : Option PyVal) : String :=
  match detail with
  | some d => force_text d
  | Option.none => MethodNotAllowed_formatted_default method

/-- Embeds `Throttled.default_detail`, a deferred translation string. -/
def Throttled_default_detail : PyVal := PyVal.lazy "Request was throttled."

/-- Embeds `Throttled.extra_detail_singular.format(wait=wait)`: the
template `Expected available in {wait} second.` with its single
placeholder filled with str(wait). -/
def Throttled_extra_singular (wait : ℤ) : String :=
  "Expected available in " ++ toString wait ++ " second."

/-- Embeds `Throttled.extra_detail_plural.format(wait=wait)`: the template
`Expected available in {wait} seconds.` with its single placeholder filled
with str(wait). -/
def Throttled_extra_plural (wait : ℤ) : String :=
  "Expected available in " ++ toString wait ++ " seconds."

/-- Modelled from the spec: Django `ungettext` in the default language
returns the singular text when the count is 1 and the plural text
otherwise. -/
def ungettext (singular plural : String) (n : ℤ) : String :=
  if n = 1 then singular else plural

/-- Embeds `Throttled.__init__`: resolves the explicit or default detail;
when a wait is given, stores its ceiling and appends the pluralized
try-again clause to the detail. Returns the pair of the stored detail and
the stored wait. -/
def Throttled_init (wait : Option ℚ) (detail : Option PyVal) : String × Option ℤ :=
  let d : String :=
    match detail with
    | some t => force_text t
    | Option.none => force_text Throttled_default_detail
  match wait with
  | Option.none => (d, Option.none)
  | some w =>
    let cw : ℤ := ⌈w⌉
    (d ++ " " ++ ungettext (Throttled_extra_singular cw) (Throttled_extra_plural cw) cw,
      some cw)

/-- A configuration with strict error-code checking off and the default
builder. -/
def strictOffSettings : ApiSettings := ⟨false, default_error_builder⟩

/-- A configuration with strict error-code checking on and the default
builder. -/
def strictOnSettings : ApiSettings := ⟨true, default_error_builder⟩

/-- The container skeleton of a Python value: containers keep their kind,
order and (for dicts) their keys, while every non-container value is
collapsed to a featureless leaf. -/
inductive PyShape where
  | leaf
  | list (xs : List PyShape)
  | tuple (xs : List PyShape)
  | dict (kvs : List (PyVal × PyShape))

mutual
/-- The container skeleton of a value. -/
def shapeOf : PyVal → PyShape
  | .list xs => .list (shapeOfList xs)
  | .tuple xs => .tuple (shapeOfList xs)
  | .dict kvs => .dict (shapeOfPairs kvs)
  | _ => .leaf

/-- The container skeletons of the elements of a list, in order. -/
def shapeOfList : List PyVal → List PyShape
  | [] => []
  | x :: xs => shapeOf x :: shapeOfList xs

/-- The container skeletons of the values of a dict, keeping the keys. -/
def shapeOfPairs : List (PyVal × PyVal) → List (PyVal × PyShape)
  | [] => []
  | (k, v) :: ps => (k, shapeOf v) :: shapeOfPairs ps
end

mutual
/-- Whether every leaf of a nested detail structure is a scalar text value
(plain or deferred string). -/
def textLeaves : PyVal → Bool
  | .list xs => textLeavesList xs
  | .tuple xs => textLeavesList xs
  | .dict kvs => textLeavesPairs kvs
  | v => v.isTextLeaf

/-- List companion of `textLeaves`. -/
def textLeavesList : List PyVal → Bool
  | [] => true
  | x :: xs => textLeaves x && textLeavesList xs

/-- Dict companion of `textLeaves`. -/
def textLeavesPairs : List (PyVal × PyVal) → Bool
  | [] => true
  | (_, v) :: ps => textLeaves v && textLeavesPairs ps
end

mutual
/-- Whether every leaf of a nested detail structure is a concrete (plain)
string. -/
def concreteLeaves : PyVal → Bool
  | .list xs => concreteLeavesList xs
  | .tuple xs => concreteLeavesList xs
  | .dict kvs => concreteLeavesPairs kvs
  | .str _ => true
  | _ => false

/-- List companion of `concreteLeaves`. -/
def concreteLeavesList : List PyVal → Bool
  | [] => true
  | x :: xs => concreteLeaves x && concreteLeavesList xs

/-- Dict companion of `concreteLeaves`. -/
def concreteLeavesPairs : List (PyVal × PyVal) → Bool
  | [] => true
  | (_, v) :: ps => concreteLeaves v && concreteLeavesPairs ps
end

mutual
/-- The forced texts of the leaves of a nested detail structure, in
traversal order. -/
def leafTexts : PyVal → List String
  | .list xs => leafTextsList xs
  | .tuple xs => leafTextsList xs
  | .dict kvs => leafTextsPairs kvs
  | v => [force_text v]

/-- List companion of `leafTexts`. -/
def leafTextsList : List PyVal → List String
  | [] => []
  | x :: xs => leafTexts x ++ leafTextsList xs

/-- Dict companion of `leafTexts`. -/
def leafTextsPairs : List (PyVal × PyVal) → List String
  | [] => []
  | (_, v) :: ps => leafTexts v ++ leafTextsPairs ps
end

mutual
/-- Normalization preserves the container skeleton of a value, including
dict keys. -/
theorem shapeOf_force_text_recursive :
    ∀ d : PyVal, shapeOf (_force_text_recursive d) = shapeOf d
  | .str s => by simp [_force_text_recursive, shapeOf]
  | .lazy s => by simp [_force_text_recursive, shapeOf]
  | .none => by simp [_force_text_recursive, shapeOf]
  | .list xs => by
      simp [_force_text_recursive, shapeOf, shapeOf_force_text_recursive_list xs]
  | .tuple xs => by
      simp [_force_text_recursive, shapeOf, shapeOf_force_text_recursive_list xs]
  | .dict kvs => by
      simp [_force_text_recursive, shapeOf, shapeOf_force_text_recursive_pairs kvs]

/-- List companion of `shapeOf_force_text_recursive`. -/
theorem shapeOf_force_text_recursive_list :
    ∀ xs : List PyVal, shapeOfList (_force_text_recursive_list xs) = shapeOfList xs
  | [] => rfl
  | x :: xs => by
      simp [_force_text_recursive_list, shapeOfList,
        shapeOf_force_text_recursive x, shapeOf_force_text_recursive_list xs]

/-- Dict companion of `shapeOf_force_text_recursive`. -/
theorem shapeOf_force_text_recursive_pairs :
    ∀ ps : List (PyVal × PyVal), shapeOfPairs (_force_text_recursive_pairs ps) = shapeOfPairs ps
  | [] => rfl
  | (k, v) :: ps => by
      simp [_force_text_recursive_pairs, shapeOfPairs,
        shapeOf_force_text_recursive v, shapeOf_force_text_recursive_pairs ps]
end

mutual
/-- Normalization leaves every leaf a concrete string. -/
theorem concreteLeaves_force_text_recursive :
    ∀ d : PyVal, concreteLeaves (_force_text_recursive d) = true
  | .str s => by simp [_force_text_recursive, concreteLeaves]
  | .lazy s => by simp [_force_text_recursive, concreteLeaves]
  | .none => by simp [_force_text_recursive, concreteLeaves]
  | .list xs => by
      simp [_force_text_recursive, concreteLeaves, concreteLeaves_force_text_recursive_list xs]
  | .tuple xs => by
      simp [_force_text_recursive, concreteLeaves, concreteLeaves_force_text_recursive_list xs]
  | .dict kvs => by
      simp [_force_text_recursive, concreteLeaves, concreteLeaves_force_text_recursive_pairs kvs]

/-- List companion of `concreteLeaves_force_text_recursive`. -/
theorem concreteLeaves_force_text_recursive_list :
    ∀ xs : List PyVal, concreteLeavesList (_force_text_recursive_list xs) = true
  | [] => rfl
  | x :: xs => by
      simp [_force_text_recursive_list, concreteLeavesList,
        concreteLeaves_force_text_recursive x, concreteLeaves_force_text_recursive_list xs]

/-- Dict companion of `concreteLeaves_force_text_recursive`. -/
theorem concreteLeaves_force_text_recursive_pairs :
    ∀ ps : List (PyVal × PyVal), concreteLeavesPairs (_force_text_recursive_pairs ps) = true
  | [] => rfl
  | (k, v) :: ps => by
      simp [_force_text_recursive_pairs, concreteLeavesPairs,
        concreteLeaves_force_text_recursive v, concreteLeaves_force_text_recursive_pairs ps]
end

mutual
/-- Normalization keeps the leaf texts, position by position: the leaves of
the normalized structure are exactly the forced texts of the original
leaves, in the same traversal order. -/
theorem leafTexts_force_text_recursive :
    ∀ d : PyVal, leafTexts (_force_text_recursive d) = leafTexts d
  | .str s => by simp [_force_text_recursive, leafTexts, force_text]
  | .lazy s => by simp [_force_text_recursive, leafTexts, force_text]
  | .none => by simp [_force_text_recursive, leafTexts, force_text]
  | .list xs => by
      simp [_force_text_recursive, leafTexts, leafTexts_force_text_recursive_list xs]
  | .tuple xs => by
      simp [_force_text_recursive, leafTexts, leafTexts_force_text_recursive_list xs]
  | .dict kvs => by
      simp [_force_text_recursive, leafTexts, leafTexts_force_text_recursive_pairs kvs]

/-- List companion of `leafTexts_force_text_recursive`. -/
theorem leafTexts_force_text_recursive_list :
    ∀ xs : List PyVal, leafTextsList (_force_text_recursive_list xs) = leafTextsList xs
  | [] => rfl
  | x :: xs => by
      simp [_force_text_recursive_list, leafTextsList,
        leafTexts_force_text_recursive x, leafTexts_force_text_recursive_list xs]

/-- Dict companion of `leafTexts_force_text_recursive`. -/
theorem leafTexts_force_text_recursive_pairs :
    ∀ ps : List (PyVal × PyVal), leafTextsPairs (_force_text_recursive_pairs ps) = leafTextsPairs ps
  | [] => rfl
  | (k, v) :: ps => by
      simp [_force_text_recursive_pairs, leafTextsPairs,
        leafTexts_force_text_recursive v, leafTexts_force_text_recursive_pairs ps]
end

/-- The list companion of normalization is the elementwise map of
normalization. -/
theorem force_text_recursive_list_eq_map :
    ∀ xs : List PyVal, _force_text_recursive_list xs = xs.map _force_text_recursive := by
  intro xs
  induction xs with
  | nil => rfl
  | cons x xs ih => simp [_force_text_recursive_list, ih]

/-- The dict companion of normalization maps over the pairs, keeping each
key and normalizing each value. -/
theorem force_text_recursive_pairs_eq_map :
    ∀ ps : List (PyVal × PyVal),
      _force_text_recursive_pairs ps = ps.map (fun p => (p.1, _force_text_recursive p.2)) := by
  intro ps
  induction ps with
  | nil => rfl
  | cons p ps ih =>
    obtain ⟨k, v⟩ := p
    simp [_force_text_recursive_pairs, ih]

/-- Ends-with on strings, computed on the underlying character lists. -/
def strEndsWith (s t : String) : Bool := t.data.isSuffixOf s.data

/-- The sample compound detail used to witness the normalization claim: a
dict holding a list with a deferred string and a nested tuple. -/
def compoundSampleDetail : PyVal :=
  PyVal.dict [(PyVal.str "field", PyVal.list [PyVal.lazy "a", PyVal.tuple [PyVal.str "b"]])]

/-- Every message of a Django validation error builds one entry through the
configured builder, in order, when no message is a dict or a list. -/
theorem build_error_messages_ok (s : ApiSettings) (code : String) :
    ∀ ms : List PyVal, (∀ m ∈ ms, m.isDict = false ∧ m.isList = false) →
      build_error_messages s code ms
        = Except.ok (ms.map (fun m => s.ERROR_BUILDER m (some code)))
  | [], _ => rfl
  | m :: ms, h => by
    have hm := h m (by simp)
    have hrest := build_error_messages_ok s code ms (fun y hy => h y (by simp [hy]))
    simp only [build_error_messages, List.map_cons]
    rw [show build_error s m (some code) = Except.ok (s.ERROR_BUILDER m (some code)) by
      simp only [build_error]
      rw [if_neg (by simp [hm.1, hm.2]), if_neg (by simp)]]
    rw [hrest]

/-- C1, counterexample: with strict checking off and the default builder,
constructing a ValidationError from the plain string "x" with no error
code stores the one-element list holding the pair ("x", "None"), while
`build_error` produces the pair ("x", None); the stored element differs
from the built entry, so the claimed literal equality fails. -/
theorem c1_scalar_entry_counterexample :
    ValidationError_init strictOffSettings (PyVal.str "x") Option.none
      = Except.ok ⟨PyVal.list [PyVal.tuple [PyVal.str "x", PyVal.str "None"]], Option.none⟩
    ∧ build_error strictOffSettings (PyVal.str "x") Option.none
      = Except.ok (PyVal.tuple [PyVal.str "x", PyVal.none])
    ∧ PyVal.tuple [PyVal.str "x", PyVal.str "None"]
      ≠ PyVal.tuple [PyVal.str "x", PyVal.none] := by
  refine ⟨?_, ?_, ?_⟩
  · simp [ValidationError_init, build_error, strictOffSettings, default_error_builder,
      pyOptionValue, PyVal.isDict, PyVal.isList, _force_text_recursive,
      _force_text_recursive_list, force_text]
  · simp [build_error, strictOffSettings, default_error_builder, pyOptionValue,
      PyVal.isDict, PyVal.isList]
  · simp

/-- C1, amended: for every configuration, every scalar (non-dict,
non-list) detail and every error code on which `build_error` succeeds, the
stored detail is the one-element list holding the recursive
text-normalization of the entry produced by `build_error`; and on the
compound path the stored detail never depends on the caller-supplied error
code, being always the normalization of the passed structure. -/
theorem c1_scalar_entry_normalized (s : ApiSettings) (detail : PyVal)
    (error_code : Option String) (entry : PyVal)
    (hscalar : detail.isDict = false ∧ detail.isList = false)
    (hbuild : build_error s detail error_code = Except.ok entry) :
    ValidationError_init s detail error_code
      = Except.ok ⟨PyVal.list [_force_text_recursive entry], error_code⟩
    ∧ (∀ d2 : PyVal, (d2.isDict = true ∨ d2.isList = true) →
        ∀ r, ValidationError_init s d2 error_code = Except.ok r →
          r.detail = _force_text_recursive d2) := by
  constructor
  · simp only [ValidationError_init]
    rw [if_pos hscalar, hbuild]
    simp [_force_text_recursive, _force_text_recursive_list]
  · intro d2 hd2 r hr
    simp only [ValidationError_init] at hr
    have hno : ¬ (d2.isDict = false ∧ d2.isList = false) := by
      rcases hd2 with h | h <;> simp [h]
    rw [if_neg hno] at hr
    by_cases hreq : s.REQUIRE_ERROR_CODES = true ∧ error_code ≠ Option.none
    · rw [if_pos hreq] at hr
      exact absurd hr (by simp)
    · rw [if_neg hreq] at hr
      rw [Except.ok.injEq] at hr
      rw [← hr]

/-- C1 witness: the amended statement applied to the configuration with
strict checking off and the default builder, the scalar detail "x" and an
absent error code. -/
theorem c1_scalar_entry_normalized_witness :
    ValidationError_init strictOffSettings (PyVal.str "x") Option.none
      = Except.ok ⟨PyVal.list
          [_force_text_recursive (PyVal.tuple [PyVal.str "x", PyVal.none])], Option.none⟩ :=
  (c1_scalar_entry_normalized strictOffSettings (PyVal.str "x") Option.none
    (PyVal.tuple [PyVal.str "x", PyVal.none]) ⟨rfl, rfl⟩
    (by simp [build_error, strictOffSettings, default_error_builder, pyOptionValue,
      PyVal.isDict, PyVal.isList])).1

/-- C2 (confirmed): for every configuration and every compound detail with
string or deferred-text leaves, construction with an absent error code
succeeds and stores the recursive normalization of the structure, which
has the same container skeleton (lists stay lists in order, tuples stay
tuples, dicts keep their keys associated to their values), has only
concrete string leaves, and carries the forced texts of the original
leaves in the same traversal order. -/
theorem c2_compound_normalization (s : ApiSettings) (detail : PyVal)
    (hcompound : detail.isDict = true ∨ detail.isList = true)
    (_hleaves : textLeaves detail = true) :
    ValidationError_init s detail Option.none
      = Except.ok ⟨_force_text_recursive detail, Option.none⟩
    ∧ shapeOf (_force_text_recursive detail) = shapeOf detail
    ∧ concreteLeaves (_force_text_recursive detail) = true
    ∧ leafTexts (_force_text_recursive detail) = leafTexts detail := by
  refine ⟨?_, shapeOf_force_text_recursive detail,
    concreteLeaves_force_text_recursive detail, leafTexts_force_text_recursive detail⟩
  simp only [ValidationError_init]
  have hno : ¬ (detail.isDict = false ∧ detail.isList = false) := by
    rcases hcompound with h | h <;> simp [h]
  rw [if_neg hno, if_neg (by simp)]

/-- C2 witness: the normalization statement applied to a concrete dict
holding a list with a deferred string and a nested tuple, under strict
checking. -/
theorem c2_compound_normalization_witness :
    ValidationError_init strictOnSettings compoundSampleDetail Option.none
      = Except.ok ⟨_force_text_recursive compoundSampleDetail, Option.none⟩
    ∧ shapeOf (_force_text_recursive compoundSampleDetail) = shapeOf compoundSampleDetail
    ∧ concreteLeaves (_force_text_recursive compoundSampleDetail) = true
    ∧ leafTexts (_force_text_recursive compoundSampleDetail) = leafTexts compoundSampleDetail :=
  c2_compound_normalization strictOnSettings compoundSampleDetail (Or.inl rfl)
    (by simp [compoundSampleDetail, textLeaves, textLeavesList, textLeavesPairs,
      PyVal.isTextLeaf])

/-- C3 (confirmed): constructing a ValidationError with a dict or list
detail together with a present error code fails with the compound
assertion message exactly when strict checking is on; with strict checking
off the same call succeeds, and its stored detail is identical to the
detail stored by the same call with the error code absent, so the
top-level code is not attached to any leaf of the normalized structure. -/
theorem c3_compound_code_contract (s : ApiSettings) (detail : PyVal)
    (error_code : Option String)
    (hcompound : detail.isDict = true ∨ detail.isList = true)
    (hcode : error_code ≠ Option.none) :
    (s.REQUIRE_ERROR_CODES = true →
      ValidationError_init s detail error_code = Except.error validationCompoundCodeMsg)
    ∧ (s.REQUIRE_ERROR_CODES = false →
      ValidationError_init s detail error_code
        = Except.ok ⟨_force_text_recursive detail, error_code⟩
      ∧ Except.map ValidationErrorState.detail (ValidationError_init s detail error_code)
          = Except.map ValidationErrorState.detail (ValidationError_init s detail Option.none)) := by
  have hno : ¬ (detail.isDict = false ∧ detail.isList = false) := by
    rcases hcompound with h | h <;> simp [h]
  constructor
  · intro hreq
    simp only [ValidationError_init]
    rw [if_neg hno, if_pos ⟨hreq, hcode⟩]
  · intro hreq
    have hok : ValidationError_init s detail error_code
        = Except.ok ⟨_force_text_recursive detail, error_code⟩ := by
      simp only [ValidationError_init]
      rw [if_neg hno, if_neg (by simp [hreq])]
    have hok2 : ValidationError_init s detail Option.none
        = Except.ok ⟨_force_text_recursive detail, Option.none⟩ := by
      simp only [ValidationError_init]
      rw [if_neg hno, if_neg (by simp)]
    refine ⟨hok, ?_⟩
    rw [hok, hok2]
    simp [Except.map]

/-- C3 witness: the contract applied to the empty dict with the code
"required", once with strict checking on and once with it off. -/
theorem c3_compound_code_contract_witness :
    ValidationError_init strictOnSettings (PyVal.dict []) (some "required")
      = Except.error validationCompoundCodeMsg
    ∧ ValidationError_init strictOffSettings (PyVal.dict []) (some "required")
      = Except.ok ⟨_force_text_recursive (PyVal.dict []), some "required"⟩ :=
  ⟨(c3_compound_code_contract strictOnSettings (PyVal.dict []) (some "required")
      (Or.inl rfl) (by simp)).1 rfl,
   ((c3_compound_code_contract strictOffSettings (PyVal.dict []) (some "required")
      (Or.inl rfl) (by simp)).2 rfl).1⟩

/-- C4, counterexample: Throttled with wait 1.4 stores wait 2 but its
detail ends in the plural clause "Expected available in 2 seconds.", not
in the singular phrasing "in 2 second." stated by the claim. -/
theorem c4_throttled_counterexample :
    Throttled_init (some 1.4) Option.none
      = ("Request was throttled. Expected available in 2 seconds.", some 2)
    ∧ strEndsWith "Request was throttled. Expected available in 2 seconds."
        "in 2 second." = false := by
  constructor
  · have h14 : (⌈(1.4 : ℚ)⌉ : ℤ) = 2 := by rw [Int.ceil_eq_iff]; norm_num
    simp only [Throttled_init, Throttled_default_detail, force_text, h14, ungettext,
      Throttled_extra_singular, Throttled_extra_plural]
    decide
  · decide

/-- C4, amended: Throttled with wait 1.4 stores wait 2 and a detail ending
in the plural clause "in 2 seconds."; wait 30 gives "in 30 seconds.";
the singular clause appears exactly when the rounded wait is 1, as for
wait 0.4; and with no wait the stored wait is absent and the detail is the
plain default message. -/
theorem c4_throttled_behaviour :
    Throttled_init (some 1.4) Option.none
      = ("Request was throttled. Expected available in 2 seconds.", some 2)
    ∧ strEndsWith "Request was throttled. Expected available in 2 seconds."
        "in 2 seconds." = true
    ∧ Throttled_init (some 30) Option.none
      = ("Request was throttled. Expected available in 30 seconds.", some 30)
    ∧ Throttled_init (some 0.4) Option.none
      = ("Request was throttled. Expected available in 1 second.", some 1)
    ∧ Throttled_init Option.none Option.none = ("Request was throttled.", Option.none) := by
  have h14 : (⌈(1.4 : ℚ)⌉ : ℤ) = 2 := by rw [Int.ceil_eq_iff]; norm_num
  have h30 : (⌈(30 : ℚ)⌉ : ℤ) = 30 := by norm_num
  have h04 : (⌈(0.4 : ℚ)⌉ : ℤ) = 1 := by rw [Int.ceil_eq_iff]; norm_num
  refine ⟨?_, by decide, ?_, ?_, by decide⟩ <;>
    · simp only [Throttled_init, Throttled_default_detail, force_text, h14, h30, h04,
        ungettext, Throttled_extra_singular, Throttled_extra_plural]
      decide

/-- C5 (confirmed): `build_error` on the scalar "x" with no error code
fails with the code-required assertion message whenever strict checking is
on; with the default builder and the code "required" it succeeds with
exactly the pair ("x", "required") under either mode; and on every list or
dict argument it fails with the single-message assertion regardless of the
configuration. -/
theorem c5_build_error_contract :
    (∀ eb : PyVal → Option String → PyVal,
      build_error ⟨true, eb⟩ (PyVal.str "x") Option.none
        = Except.error buildErrorCodeRequiredMsg)
    ∧ (∀ req : Bool,
      build_error ⟨req, default_error_builder⟩ (PyVal.str "x") (some "required")
        = Except.ok (PyVal.tuple [PyVal.str "x", PyVal.str "required"]))
    ∧ (∀ (s : ApiSettings) (xs : List PyVal) (ec : Option String),
        build_error s (PyVal.list xs) ec = Except.error buildErrorCompoundMsg)
    ∧ (∀ (s : ApiSettings) (kvs : List (PyVal × PyVal)) (ec : Option String),
        build_error s (PyVal.dict kvs) ec = Except.error buildErrorCompoundMsg) := by
  refine ⟨fun eb => ?_, fun req => ?_, fun s xs ec => ?_, fun s kvs ec => ?_⟩ <;>
    simp [build_error, PyVal.isDict, PyVal.isList, default_error_builder, pyOptionValue]

/-- C6 (confirmed): MethodNotAllowed with method "POST" and no override
has status 405 and detail exactly the method-filled template; with any
explicit text detail the stored detail is its forced text and the template
is not used. -/
theorem c6_method_not_allowed :
    MethodNotAllowed_init "POST" Option.none = "Method \"POST\" not allowed."
    ∧ MethodNotAllowed_status_code = 405
    ∧ (∀ (method : String) (d : PyVal), d.isTextLeaf = true →
        MethodNotAllowed_init method (some d) = force_text d) :=
  ⟨rfl, rfl, fun _ _ _ => rfl⟩

/-- C6 witness: the override clause applied to the method "GET" and a
deferred text detail. -/
theorem c6_method_not_allowed_witness :
    MethodNotAllowed_init "GET" (some (PyVal.lazy "custom message"))
      = force_text (PyVal.lazy "custom message") :=
  c6_method_not_allowed.2.2 "GET" (PyVal.lazy "custom message") rfl

/-- C7 (confirmed): for every configuration and every field-level Django
validation error whose messages are not dicts or lists, the builder
produces one entry per message, in message order, all sharing the
classifier code resolved with default "invalid". -/
theorem c7_django_validation_entries (s : ApiSettings)
    (exc_inf : DjangoValidationErrorInfo)
    (h : ∀ m ∈ exc_inf.messages, m.isDict = false ∧ m.isList = false) :
    build_error_from_django_validation_error s exc_inf
      = Except.ok (exc_inf.messages.map
          (fun m => s.ERROR_BUILDER m (some (pyOrDefault exc_inf.code "invalid")))) := by
  simp only [build_error_from_django_validation_error]
  exact build_error_messages_ok s (pyOrDefault exc_inf.code "invalid") exc_inf.messages h

/-- C7 witness: an absent code and the messages "a", "b" yield the two
pairs ("a", "invalid") and ("b", "invalid") under the default builder. -/
theorem c7_django_validation_entries_witness :
    build_error_from_django_validation_error strictOffSettings
      ⟨Option.none, [PyVal.str "a", PyVal.str "b"]⟩
      = Except.ok [PyVal.tuple [PyVal.str "a", PyVal.str "invalid"],
          PyVal.tuple [PyVal.str "b", PyVal.str "invalid"]] := by
  have h := c7_django_validation_entries strictOffSettings
    ⟨Option.none, [PyVal.str "a", PyVal.str "b"]⟩
    (by
      intro m hm
      simp only [List.mem_cons, List.not_mem_nil, or_false] at hm
      rcases hm with rfl | rfl <;> exact ⟨rfl, rfl⟩)
  simpa [strictOffSettings, default_error_builder, pyOptionValue, pyOrDefault] using h

/-- C8 (confirmed): with strict checking off and the default builder, a
ValidationError built from a single plain or deferred message with an
absent error code stores the pair whose second component is the string
"None", the stringification of the absent code, not an absent value. -/
theorem c8_absent_code_stringified :
    ∀ m : String,
      ValidationError_init strictOffSettings (PyVal.str m) Option.none
        = Except.ok ⟨PyVal.list [PyVal.tuple [PyVal.str m, PyVal.str "None"]], Option.none⟩
      ∧ ValidationError_init strictOffSettings (PyVal.lazy m) Option.none
        = Except.ok ⟨PyVal.list [PyVal.tuple [PyVal.str m, PyVal.str "None"]], Option.none⟩ := by
  intro m
  constructor <;>
    simp [ValidationError_init, build_error, strictOffSettings, default_error_builder,
      pyOptionValue, PyVal.isDict, PyVal.isList, _force_text_recursive,
      _force_text_recursive_list, force_text]

/-- C9 (confirmed): for every wait and every explicit text detail,
Throttled stores the ceiling of the wait and appends the pluralized
try-again clause to the forced override text: the override replaces only
the base message, never the wait suffix. -/
theorem c9_override_keeps_wait_clause :
    ∀ (w : ℚ) (d : PyVal), d.isTextLeaf = true →
      (Throttled_init (some w) (some d)).1
        = force_text d ++ " "
          ++ ungettext (Throttled_extra_singular ⌈w⌉) (Throttled_extra_plural ⌈w⌉) ⌈w⌉
      ∧ (Throttled_init (some w) (some d)).2 = some ⌈w⌉ :=
  fun _ _ _ => ⟨rfl, rfl⟩

/-- C9 witness: the clause is appended to the explicit override
"Slow down." for wait 1.4. -/
theorem c9_override_keeps_wait_clause_witness :
    (Throttled_init (some 1.4) (some (PyVal.str "Slow down."))).1
      = "Slow down. Expected available in 2 seconds."
    ∧ (Throttled_init (some 1.4) (some (PyVal.str "Slow down."))).2 = some 2 := by
  have h := c9_override_keeps_wait_clause 1.4 (PyVal.str "Slow down.") rfl
  have h14 : (⌈(1.4 : ℚ)⌉ : ℤ) = 2 := by rw [Int.ceil_eq_iff]; norm_num
  refine ⟨?_, ?_⟩
  · rw [h.1, h14]
    decide
  · rw [h.2, h14]

/-- C10 (confirmed): the recursive normalization of a dict transforms only
the values: the result is the dict with every key kept exactly as passed,
deferred or not, and every value subtree normalized recursively. -/
theorem c10_dict_keys_untouched :
    ∀ kvs : List (PyVal × PyVal),
      _force_text_recursive (PyVal.dict kvs)
        = PyVal.dict (kvs.map (fun p => (p.1, _force_text_recursive p.2))) := by
  intro kvs
  simp [_force_text_recursive, force_text_recursive_pairs_eq_map]
